import Mathlib

/-!
Verification of the OpenDTU_VeDirect control core against its specification.

The development shallowly embeds the parts of the firmware the specification
talks about:

* the per-model field-descriptor table of the HM-2CH inverter
  (`lib/Hoymiles/src/inverters/HM_2CH.cpp`),
* the power-meter freshness predicate (`PowerMeterProvider::isDataValid`),
* the base power limiter loop (`PowerLimiterClass::loop`),
* the surplus-power regulator (`SurplusPowerClass`, `src/SurplusPower.cpp`).

Machine integers are modelled as `Nat`/`Int` with explicit reductions modulo
`2^16` or `2^32` where the C++ code performs unsigned conversions, and the
firmware's `float` values are modelled as exact rationals.
-/

namespace OpenDTU

/-- `millis() - earlier` as computed on `uint32_t`: wraparound subtraction
modulo `2^32`. -/
def elapsed32 (now earlier : Nat) : Nat :=
  ((now % 4294967296) + 4294967296 - earlier % 4294967296) % 4294967296

/-- Conversion of a C++ signed integer value to `uint16_t` (reduction
modulo `2^16`). -/
def u16 (i : Int) : Nat :=
  (i % 65536).toNat

/-- C++ `float`-to-integer conversion: truncation toward zero. -/
def cppTrunc (q : ℚ) : Int :=
  if q < 0 then -⌊-q⌋ else ⌊q⌋

/-- Arduino's `constrain(amt, low, high)` macro on unsigned 16-bit values:
`(amt < low) ? low : ((amt > high) ? high : amt)`. -/
def constrain (amt low high : Nat) : Nat :=
  if amt < low then low else if high < amt then high else amt

theorem u16_eq_of_lt (i : Int) (h0 : 0 ≤ i) (h : i < 65536) : (u16 i : Int) = i := by
  unfold u16
  omega

theorem u16_lt (i : Int) : u16 i < 65536 := by
  unfold u16
  omega

/-! ## Power-meter provider (`powermeter/Provider.h`, `PowerMeterProvider.cpp`)

`_lastUpdate` is a `uint32_t` initialised to `0` and set to `millis()` by
`gotUpdate()`.  `isDataValid()` is
`_lastUpdate > 0 && ((millis() - _lastUpdate) < (30 * 1000))`. -/

/-- `PowerMeterProvider::isDataValid`, as a function of the current
`millis()` value and the stored `_lastUpdate` timestamp. -/
def isDataValid (now lastUpdate : Nat) : Bool :=
  decide (0 < lastUpdate) && decide (elapsed32 now lastUpdate < 30 * 1000)

/-! ## HM-2CH field-descriptor table (`HM_2CH.cpp`) -/

/-- `ChannelType_t`: the channel kind of a descriptor. -/
inductive ChannelType where
  | TYPE_AC
  | TYPE_DC
  | TYPE_INV
  deriving DecidableEq, Repr

/-- `byteAssign_t`: one field descriptor.  Field ids and unit ids are kept as
the numeric values of the `FLD_*` / `UNIT_*` enumerations; for calculated
fields `start` holds the calculation-function index and `div` holds the
`CMD_CALC` sentinel `0xffff`. -/
structure ByteAssign where
  type : ChannelType
  ch : Nat
  fieldId : Nat
  unitId : Nat
  start : Nat
  num : Nat
  div : Nat
  isSigned : Bool
  digits : Nat
  deriving DecidableEq, Repr

-- numeric values of the enumerations used by the table
def FLD_UDC : Nat := 0
def FLD_IDC : Nat := 1
def FLD_PDC : Nat := 2
def FLD_YD : Nat := 3
def FLD_YT : Nat := 4
def FLD_UAC : Nat := 5
def FLD_IAC : Nat := 6
def FLD_PAC : Nat := 7
def FLD_F : Nat := 8
def FLD_T : Nat := 9
def FLD_PF : Nat := 10
def FLD_EFF : Nat := 11
def FLD_IRR : Nat := 12
def FLD_Q : Nat := 13
def FLD_EVT_LOG : Nat := 14

def UNIT_V : Nat := 0
def UNIT_A : Nat := 1
def UNIT_W : Nat := 2
def UNIT_WH : Nat := 3
def UNIT_KWH : Nat := 4
def UNIT_HZ : Nat := 5
def UNIT_C : Nat := 6
def UNIT_PCT : Nat := 7
def UNIT_VAR : Nat := 8
def UNIT_NONE : Nat := 9

def CH0 : Nat := 0
def CH1 : Nat := 1

def CALC_TOTAL_YT : Nat := 0
def CALC_TOTAL_YD : Nat := 1
def CALC_CH_UDC : Nat := 2
def CALC_TOTAL_PDC : Nat := 3
def CALC_TOTAL_EFF : Nat := 4
def CALC_CH_IRR : Nat := 5

def CMD_CALC : Nat := 0xffff

open ChannelType in
/-- The `byteAssignment` table of `HM_2CH.cpp`, transcribed entry by entry. -/
def byteAssignment : List ByteAssign := [
  ⟨TYPE_DC, CH0, FLD_UDC, UNIT_V, 2, 2, 10, false, 1⟩,
  ⟨TYPE_DC, CH0, FLD_IDC, UNIT_A, 4, 2, 100, false, 2⟩,
  ⟨TYPE_DC, CH0, FLD_PDC, UNIT_W, 6, 2, 10, false, 1⟩,
  ⟨TYPE_DC, CH0, FLD_YD, UNIT_WH, 22, 2, 1, false, 0⟩,
  ⟨TYPE_DC, CH0, FLD_YT, UNIT_KWH, 14, 4, 1000, false, 3⟩,
  ⟨TYPE_DC, CH0, FLD_IRR, UNIT_PCT, CALC_CH_IRR, CH0, CMD_CALC, false, 3⟩,
  ⟨TYPE_DC, CH1, FLD_UDC, UNIT_V, 8, 2, 10, false, 1⟩,
  ⟨TYPE_DC, CH1, FLD_IDC, UNIT_A, 10, 2, 100, false, 2⟩,
  ⟨TYPE_DC, CH1, FLD_PDC, UNIT_W, 12, 2, 10, false, 1⟩,
  ⟨TYPE_DC, CH1, FLD_YD, UNIT_WH, 24, 2, 1, false, 0⟩,
  ⟨TYPE_DC, CH1, FLD_YT, UNIT_KWH, 18, 4, 1000, false, 3⟩,
  ⟨TYPE_DC, CH1, FLD_IRR, UNIT_PCT, CALC_CH_IRR, CH1, CMD_CALC, false, 3⟩,
  ⟨TYPE_AC, CH0, FLD_UAC, UNIT_V, 26, 2, 10, false, 1⟩,
  ⟨TYPE_AC, CH0, FLD_IAC, UNIT_A, 34, 2, 100, false, 2⟩,
  ⟨TYPE_AC, CH0, FLD_PAC, UNIT_W, 30, 2, 10, false, 1⟩,
  ⟨TYPE_AC, CH0, FLD_Q, UNIT_VAR, 32, 2, 10, false, 1⟩,
  ⟨TYPE_AC, CH0, FLD_F, UNIT_HZ, 28, 2, 100, false, 2⟩,
  ⟨TYPE_AC, CH0, FLD_PF, UNIT_NONE, 36, 2, 1000, false, 3⟩,
  ⟨TYPE_INV, CH0, FLD_T, UNIT_C, 38, 2, 10, true, 1⟩,
  ⟨TYPE_INV, CH0, FLD_EVT_LOG, UNIT_NONE, 40, 2, 1, false, 0⟩,
  ⟨TYPE_INV, CH0, FLD_YD, UNIT_WH, CALC_TOTAL_YD, 0, CMD_CALC, false, 0⟩,
  ⟨TYPE_INV, CH0, FLD_YT, UNIT_KWH, CALC_TOTAL_YT, 0, CMD_CALC, false, 3⟩,
  ⟨TYPE_INV, CH0, FLD_PDC, UNIT_W, CALC_TOTAL_PDC, 0, CMD_CALC, false, 1⟩,
  ⟨TYPE_INV, CH0, FLD_EFF, UNIT_PCT, CALC_TOTAL_EFF, 0, CMD_CALC, false, 3⟩]

/-- Two descriptors agree on the `(channelIndex, fieldId)` pair. -/
def samePair (a b : ByteAssign) : Prop :=
  a.ch = b.ch ∧ a.fieldId = b.fieldId

/-- Two descriptors agree on the `(channelKind, channelIndex, fieldId)`
triple. -/
def sameTriple (a b : ByteAssign) : Prop :=
  a.type = b.type ∧ a.ch = b.ch ∧ a.fieldId = b.fieldId

instance (a b : ByteAssign) : Decidable (samePair a b) := instDecidableAnd

instance (a b : ByteAssign) : Decidable (sameTriple a b) := instDecidableAnd

/-! ## Base power limiter (`PowerLimiterClass::loop`)

The loop reads external meter values cached by `onMqttMessage` (three float
values sharing one `_lastPowerMeterUpdate` timestamp), the target inverter's
telemetry, and the configuration.  `newPowerLimit` is a `uint16_t`, so all
limit arithmetic happens modulo `2^16`. -/

/-- Configuration fields of the power limiter (`CONFIG_T`).  The power limits
are `int32_t` values that the loop converts to `uint16_t` at their use
sites. -/
structure PLConfig where
  enabled : Bool
  interval : Nat
  voltageStartThreshold : ℚ
  voltageStopThreshold : ℚ
  voltageLoadCorrectionFactor : ℚ
  isInverterBehindPowerMeter : Bool
  lowerPowerLimit : Int
  upperPowerLimit : Int
  deriving Repr

/-- Mutable state of `PowerLimiterClass`: the last requested limit, the
command/loop timestamps and the cached meter readings with their shared
receipt timestamp. -/
structure PLState where
  lastRequestedPowerLimit : Nat
  lastCommandSent : Nat
  lastLoop : Nat
  powerMeter1Power : ℚ
  powerMeter2Power : ℚ
  powerMeter3Power : ℚ
  lastPowerMeterUpdate : Nat
  deriving Repr

/-- External readings consumed by one invocation of the loop. -/
structure PLInputs where
  now : Nat
  mqttConnected : Bool
  radioIdle : Bool
  hasInverter : Bool
  reachable : Bool
  statsLastUpdate : Nat
  dcVoltage : ℚ
  acPower : ℚ
  isProducing : Bool
  deriving Repr

/-- The externally visible action of one loop invocation. -/
inductive PLAction where
  | noAction
  | stopAndLimit (limit : Nat)
  | start
  | sendLimit (limit : Nat)
  deriving DecidableEq, Repr

namespace PowerLimiter

/-- The limit computation of the producing/voltage-acceptable branch:
`newPowerLimit = int(m1+m2+m3); [+= last;] -= 10;` on `uint16_t`, then
`constrain` to the configured bounds — or the lower limit when all meter
data is stale. -/
def newLimit (cfg : PLConfig) (st : PLState) (now : Nat) : Nat :=
  if elapsed32 now st.lastPowerMeterUpdate < 30 * 1000 then
    let l0 : Nat := u16 (cppTrunc (st.powerMeter1Power + st.powerMeter2Power + st.powerMeter3Power))
    let l1 : Nat := if cfg.isInverterBehindPowerMeter then
        u16 ((l0 : Int) + (st.lastRequestedPowerLimit : Int))
      else l0
    let l2 : Nat := u16 ((l1 : Int) - 10)
    constrain l2 (u16 cfg.lowerPowerLimit) (u16 cfg.upperPowerLimit)
  else
    u16 cfg.lowerPowerLimit

/-- `PowerLimiterClass::loop`, returning the updated state and the action
performed on the inverter-command sink. -/
def loop (cfg : PLConfig) (st : PLState) (inp : PLInputs) : PLState × PLAction :=
  if cfg.enabled = false ∨ inp.mqttConnected = false ∨ inp.radioIdle = false
      ∨ elapsed32 inp.now st.lastCommandSent < cfg.interval * 1000
      ∨ elapsed32 inp.now st.lastLoop < cfg.interval * 1000 then
    (st, .noAction)
  else
    let st := { st with lastLoop := inp.now }
    if inp.hasInverter = false ∨ inp.reachable = false then (st, .noAction)
    else if 10000 < elapsed32 inp.now inp.statsLastUpdate then (st, .noAction)
    else if inp.isProducing then
      let correctedDcVoltage := inp.dcVoltage + inp.acPower * cfg.voltageLoadCorrectionFactor
      if 0 < inp.dcVoltage ∧ 0 < cfg.voltageStopThreshold
          ∧ correctedDcVoltage ≤ cfg.voltageStopThreshold then
        let newPowerLimit := u16 cfg.lowerPowerLimit
        ({ st with lastRequestedPowerLimit := newPowerLimit, lastCommandSent := inp.now },
          .stopAndLimit newPowerLimit)
      else
        let newPowerLimit := newLimit cfg st inp.now
        ({ st with lastRequestedPowerLimit := newPowerLimit, lastCommandSent := inp.now },
          .sendLimit newPowerLimit)
    else
      if 0 < inp.dcVoltage ∧ 0 < cfg.voltageStartThreshold
          ∧ cfg.voltageStartThreshold ≤ inp.dcVoltage then
        ({ st with lastCommandSent := inp.now }, .start)
      else
        (st, .noAction)

end PowerLimiter

/-! ## Surplus-power regulator (`SurplusPower.cpp`) -/

/-- Modelled from the spec: the `WeightedAVG` helper of `Statistic.h` is not
part of the provided sources; the spec describes it as "a small
fixed-capacity ring buffer with a running sum", i.e. a bounded-window
average utility.  `data` holds the newest sample first. -/
structure WAvg where
  cap : Nat
  data : List ℚ
  deriving Repr

namespace WAvg

/-- Modelled from the spec: push a sample into the bounded window. -/
def addNumber (w : WAvg) (v : ℚ) : WAvg :=
  ⟨w.cap, (v :: w.data).take w.cap⟩

/-- Modelled from the spec: the average over the stored window (0 when
empty). -/
def getAverage (w : WAvg) : ℚ :=
  if w.data.length = 0 then 0 else w.data.sum / (w.data.length : ℚ)

/-- Modelled from the spec: forget all samples. -/
def reset (w : WAvg) : WAvg :=
  ⟨w.cap, []⟩

end WAvg

/-- The state machine tag (`SurplusPowerClass::State`). -/
inductive SPState where
  | IDLE
  | TRY_MORE
  | REDUCE_POWER
  | IN_TARGET
  | MAXIMUM_POWER
  | KEEP_LAST_POWER
  | BULK_POWER
  deriving DecidableEq, Repr

/-- The member variables of `SurplusPowerClass` (see `SurplusPower.h`). -/
structure Surplus where
  stageIIEnabled : Bool
  stageIITempOff : Bool
  surplusState : SPState
  surplusPower : Int
  powerStepSize : Int
  lastInTargetMillis : Nat
  lastCalcMillis : Nat
  surplusUpperPowerLimit : Int
  avgMPPTVoltage : WAvg
  qualityCounter : Int
  qualityAVG : WAvg
  lastAddPower : Int
  overruleCounter : Nat
  errorCounter : Nat
  stageIEnabled : Bool
  stageITempOff : Bool
  batteryReserve : Int
  batterySafetyPercent : ℚ
  batteryCapacity : Int
  durationAbsorptionToSunset : Int
  durationNowToAbsorption : Int
  solarPower : Int
  startSoC : ℚ
  lastReserveCalcMillis : Nat
  deriving Repr

/-- External readings consumed by one `calculateSurplusPower` tick: the MPPT
operating mode, the MPPT voltages (mV), battery statistics, the solar panel
power (`-1` when unavailable) and the local/sunset time difference in
minutes (`none` when either clock reading is unavailable). -/
structure SPInputs where
  now : Nat
  mpptMode : Option Nat
  absorptionVoltage : Option ℚ
  floatVoltage : Option ℚ
  mpptBatteryVoltage : Option ℚ
  batteryEnabled : Bool
  socValid : Bool
  socAgeSeconds : Nat
  soc : ℚ
  batteryCurrentValid : Bool
  batteryCurrentAgeSeconds : Nat
  batteryChargeCurrent : ℚ
  solarPowerOutput : Int
  timeToSunsetRaw : Option Int
  deriving Repr

namespace Surplus

/-- `SurplusPowerClass::updateSettings`: hard-coded stage parameters, bound
checks, fallback of the upper limit to the DPL total upper power limit, and
the step-size computation `max(upper/20, hysteresis) + 1`. -/
def updateSettings (totalUpperPowerLimit hysteresis : Int) (st : Surplus) : Surplus :=
  let stageIEnabled := false
  let startSoC : ℚ := 80
  let batteryCapacity : Int := 2500
  let batterySafetyPercent : ℚ := 30
  let durationAbsorptionToSunset : Int := 30
  let surplusUpperPowerLimit : Int := 0
  let stageIIEnabled := true
  let startSoC := if startSoC < 40 ∨ 100 < startSoC then 70 else startSoC
  let batteryCapacity := if batteryCapacity < 100 ∨ 40000 < batteryCapacity then 2500 else batteryCapacity
  let batterySafetyPercent := if batterySafetyPercent < 0 ∨ 100 < batterySafetyPercent then 20 else batterySafetyPercent
  let durationAbsorptionToSunset := if durationAbsorptionToSunset < 0 ∨ 4 * 60 < durationAbsorptionToSunset then 60 else durationAbsorptionToSunset
  let surplusUpperPowerLimit := if surplusUpperPowerLimit = 0 then totalUpperPowerLimit else surplusUpperPowerLimit
  let powerStepSize := Int.tdiv surplusUpperPowerLimit 20
  let powerStepSize := max powerStepSize hysteresis + 1
  { st with
    stageIEnabled := stageIEnabled
    startSoC := startSoC
    batteryCapacity := batteryCapacity
    batterySafetyPercent := batterySafetyPercent
    durationAbsorptionToSunset := durationAbsorptionToSunset
    stageIIEnabled := stageIIEnabled
    surplusUpperPowerLimit := surplusUpperPowerLimit
    powerStepSize := powerStepSize }

/-- `SurplusPowerClass::getTimeToSunset`: the sunset/local time difference in
minutes clamped at 0, or 0 with an error-counter increment when a clock
reading is unavailable. -/
def getTimeToSunset (st : Surplus) (inp : SPInputs) : Int × Surplus :=
  match inp.timeToSunsetRaw with
  | some d => (max d 0, st)
  | none => (0, { st with errorCounter := st.errorCounter + 1 })

/-- Entry into stage II from `IDLE` (after its error-counter reset) or
`BULK_POWER`: seed the surplus with `max(surplus, requestedPower)`, reset the
quality bookkeeping and move to `TRY_MORE`. -/
def stageIIEntry (st : Surplus) (requestedPower : Nat) : Int × Surplus :=
  (0, { st with
          surplusPower := max st.surplusPower (requestedPower : Int)
          surplusState := .TRY_MORE
          qualityCounter := 0
          overruleCounter := 0
          qualityAVG := st.qualityAVG.reset })

/-- The stage-II state machine (`switch (_surplusState)` in
`calcAbsorptionFloatMode`), producing the power adjustment `addPower` and
the updated state. -/
def stageIIMachine (st : Surplus) (requestedPower : Nat) (now : Nat)
    (mpptVoltage avgMPPTVoltage targetVoltage : ℚ) : Int × Surplus :=
  match st.surplusState with
  | .IDLE => stageIIEntry { st with errorCounter := 0 } requestedPower
  | .BULK_POWER => stageIIEntry st requestedPower
  | .KEEP_LAST_POWER =>
      if targetVoltage ≤ mpptVoltage then
        (st.powerStepSize, { st with surplusState := .TRY_MORE })
      else
        (0, { st with surplusState := .REDUCE_POWER })
  | .TRY_MORE =>
      if targetVoltage ≤ mpptVoltage then
        (2 * st.powerStepSize, st)
      else
        (-st.powerStepSize, { st with surplusState := .REDUCE_POWER })
  | .REDUCE_POWER =>
      if targetVoltage ≤ mpptVoltage then
        (0, { st with lastInTargetMillis := now, surplusState := .IN_TARGET })
      else
        (-st.powerStepSize, st)
  | .MAXIMUM_POWER | .IN_TARGET =>
      if targetVoltage ≤ avgMPPTVoltage ∨ targetVoltage ≤ mpptVoltage then
        let r : Int × Surplus :=
          if 60 * 1000 < elapsed32 now st.lastInTargetMillis then
            (st.powerStepSize, { st with surplusState := .TRY_MORE })
          else
            (0, st)
        let st := r.2
        let st :=
          if st.qualityCounter ≠ 0 then
            { st with qualityAVG := st.qualityAVG.addNumber (st.qualityCounter : ℚ) }
          else st
        (r.1, { st with qualityCounter := 0 })
      else
        (-st.powerStepSize, { st with surplusState := .REDUCE_POWER })

/-- The battery-current overrule following the state machine: a pending
non-negative adjustment of a positive surplus is forced to `-stepSize` when
a fresh battery reading shows net discharge. -/
def stageIIOverrule (st : Surplus) (inp : SPInputs) (addPower : Int) : Int × Surplus :=
  if 0 ≤ addPower ∧ 0 < st.surplusPower ∧ inp.batteryEnabled = true
      ∧ inp.batteryCurrentValid = true ∧ inp.batteryCurrentAgeSeconds < 5
      ∧ inp.batteryChargeCurrent < 0 then
    (-st.powerStepSize,
      { st with surplusState := .REDUCE_POWER, overruleCounter := st.overruleCounter + 1 })
  else
    (addPower, st)

/-- The tail of `calcAbsorptionFloatMode`: apply `addPower`, clamp the
surplus to `[0, upperLimit]` (entering `MAXIMUM_POWER` at the top), floor
the returned power at `requestedPower` (entering `KEEP_LAST_POWER`), and do
the polarity-change quality accounting. -/
def stageIIFinish (st : Surplus) (requestedPower : Nat) (addPower : Int) : Surplus × Nat :=
  let sp := st.surplusPower + addPower
  let sp := max sp 0
  let r : Int × Surplus :=
    if st.surplusUpperPowerLimit < sp then
      (st.surplusUpperPowerLimit, { st with surplusState := .MAXIMUM_POWER })
    else
      (sp, st)
  let st : Surplus := { r.2 with surplusPower := r.1 }
  let backPower := u16 st.surplusPower
  if backPower < requestedPower then
    ({ st with qualityCounter := 0, surplusState := .KEEP_LAST_POWER }, requestedPower)
  else
    let st : Surplus :=
      if (st.lastAddPower < 0 ∧ 0 < addPower) ∨ (0 < st.lastAddPower ∧ addPower < 0) then
        { st with qualityCounter := st.qualityCounter + 1 }
      else st
    ({ st with lastAddPower := addPower }, backPower)

/-- `SurplusPowerClass::calcAbsorptionFloatMode` (stage II), for the MPPT
mode `modeAF` (4 = absorption, 5 = float). -/
def calcAbsorptionFloatMode (st : Surplus) (inp : SPInputs) (requestedPower : Nat)
    (modeAF : Nat) : Surplus × Nat :=
  match inp.absorptionVoltage, inp.floatVoltage with
  | some av, some fv =>
    let targetVoltage := (if modeAF = 4 then av else fv) / 1000 - 1 / 10
    match inp.mpptBatteryVoltage with
    | some mv =>
      let mpptVoltage := mv / 1000
      let avgW := st.avgMPPTVoltage.addNumber mpptVoltage
      let avgMPPTVoltage := avgW.getAverage
      let st := { st with avgMPPTVoltage := avgW }
      let r := stageIIMachine st requestedPower inp.now mpptVoltage avgMPPTVoltage targetVoltage
      let r := stageIIOverrule r.2 inp r.1
      stageIIFinish r.2 requestedPower r.1
    | none => ({ st with errorCounter := st.errorCounter + 1 }, requestedPower)
  | _, _ => ({ st with errorCounter := st.errorCounter + 1 }, requestedPower)

/-- `SurplusPowerClass::calcBulkMode` (stage I). -/
def calcBulkMode (st : Surplus) (inp : SPInputs) (requestedPower : Nat) : Surplus × Nat :=
  let startValue := st.startSoC
  let stopValue := st.startSoC - 2
  if inp.batteryEnabled = true ∧ inp.socValid = true ∧ inp.socAgeSeconds < 60 then
    let actValue := inp.soc
    if actValue ≤ stopValue ∨ (actValue < startValue ∧ st.surplusState = .IDLE) then
      ({ st with surplusPower := 0, surplusState := .IDLE }, requestedPower)
    else
      let st := { st with solarPower := inp.solarPowerOutput }
      if st.solarPower = -1 then
        ({ st with errorCounter := st.errorCounter + 1 }, requestedPower)
      else
        let st :=
          if st.surplusState = .IDLE then
            { st with batteryReserve := 99999, lastReserveCalcMillis := 0,
                      surplusPower := 0, errorCounter := 0 }
          else st
        let st := { st with surplusState := .BULK_POWER }
        let st :=
          if 5 * 60 * 1000 < elapsed32 inp.now st.lastReserveCalcMillis then
            let st := { st with lastReserveCalcMillis := inp.now }
            let actSoC := actValue
            let r := getTimeToSunset st inp
            let st := r.2
            let durationNowToAbsorption : Int := r.1 - st.durationAbsorptionToSunset
            if 0 < durationNowToAbsorption then
              let batteryReserve := cppTrunc ((st.batteryCapacity : ℚ)
                * (998 / 1000 - actSoC / 100) / (durationNowToAbsorption : ℚ) * 60
                * (1 + st.batterySafetyPercent / 100))
              { st with durationNowToAbsorption := durationNowToAbsorption,
                        batteryReserve := max batteryReserve 0 }
            else
              { st with batteryReserve := 99999, durationNowToAbsorption := 0 }
          else st
        let sp := cppTrunc (((st.solarPower : ℚ) * (97 / 100) - (st.batteryReserve : ℚ))
          * (94 / 100))
        let sp := max sp 0
        let sp := min sp st.surplusUpperPowerLimit
        let st := { st with surplusPower := sp }
        (st, max (u16 sp) requestedPower)
  else
    ({ st with errorCounter := st.errorCounter + 1 }, requestedPower)

/-- `SurplusPowerClass::calculateSurplusPower`: throttling, MPPT-mode
dispatch into stage I / stage II, and the idle fallback. -/
def calculateSurplusPower (st : Surplus) (inp : SPInputs) (requestedPower : Nat) : Surplus × Nat :=
  if elapsed32 inp.now st.lastCalcMillis < 5 * 1000 then
    if st.surplusPower ≤ (requestedPower : Int) then (st, requestedPower)
    else (st, u16 st.surplusPower)
  else
    let st := { st with lastCalcMillis := inp.now }
    match inp.mpptMode with
    | none => ({ st with errorCounter := st.errorCounter + 1 }, requestedPower)
    | some m =>
      if st.stageIEnabled = true ∧ st.stageITempOff = false ∧ m = 3 then
        calcBulkMode st inp requestedPower
      else if st.stageIIEnabled = true ∧ st.stageIITempOff = false ∧ (m = 4 ∨ m = 5) then
        calcAbsorptionFloatMode st inp requestedPower m
      else
        ({ st with surplusState := .IDLE, surplusPower := 0 }, requestedPower)

end Surplus

/-! ## Theorems -/

/-- C10: `PowerMeterProvider::isDataValid` returns true if and only if the
stored last-update timestamp is non-zero and that update is strictly younger
than 30000 ms; in particular with the initial timestamp 0 (before the first
update after boot) it returns false. -/
theorem c10_isDataValid_iff :
    ∀ now lastUpdate : Nat,
      (isDataValid now lastUpdate = true ↔
        0 < lastUpdate ∧ elapsed32 now lastUpdate < 30000) ∧
      isDataValid now 0 = false := by
  intro now lastUpdate
  constructor
  · simp [isDataValid]
  · simp [isDataValid]

theorem u16_add_left (a b : Int) : u16 ((u16 a : Int) + b) = u16 (a + b) := by
  unfold u16
  omega

theorem u16_sub_left (a b : Int) : u16 ((u16 a : Int) - b) = u16 (a - b) := by
  unfold u16
  omega

theorem constrain_eq_clamp (a lo hi : Nat) (h : lo ≤ hi) :
    constrain a lo hi = min (max a lo) hi := by
  unfold constrain
  split
  · omega
  · split <;> omega

/-- The limit C2 describes, in exact integer arithmetic: sum of the cached
meter readings, plus the last requested limit when the inverter sits behind
the meter, minus the 10 W margin, clamped to `[lowerLimit, upperLimit]`. -/
def claimedLimit (cfg : PLConfig) (st : PLState) : Int :=
  min (max (cppTrunc (st.powerMeter1Power + st.powerMeter2Power + st.powerMeter3Power)
      + (if cfg.isInverterBehindPowerMeter then (st.lastRequestedPowerLimit : Int) else 0)
      - 10) (u16 cfg.lowerPowerLimit : Int)) (u16 cfg.upperPowerLimit : Int)

/-- C3 counterexample: the HM-2CH descriptor table does contain two distinct
descriptors sharing the same `(channelIndex, fieldId)` pair (e.g. the raw
DC yield-day on channel 0 and the calculated total yield-day, both
`(CH0, FLD_YD)`), so pairwise `(channelIndex, fieldId)` uniqueness fails. -/
theorem c3_counterexample :
    ¬ List.Pairwise (fun a b => ¬ samePair a b) byteAssignment := by
  decide

/-- C3 (amended): no two descriptors of the HM-2CH table share the same
`(channelKind, channelIndex, fieldId)` triple. -/
theorem c3_unique_triples :
    List.Pairwise (fun a b => ¬ sameTriple a b) byteAssignment := by
  decide

/-- C4 (amended): on an active tick with the inverter producing,
`dcVoltage > 0`, the stop threshold enabled and
`correctedVoltage ≤ stopThreshold`, the limiter stops the inverter, sends an
absolute non-persistent limit equal to the configured lower bound, and
records the requested limit and the command timestamp. -/
theorem c4_stop_branch (cfg : PLConfig) (st : PLState) (inp : PLInputs)
    (hen : cfg.enabled = true) (hmq : inp.mqttConnected = true) (hri : inp.radioIdle = true)
    (hcmd : cfg.interval * 1000 ≤ elapsed32 inp.now st.lastCommandSent)
    (hloop : cfg.interval * 1000 ≤ elapsed32 inp.now st.lastLoop)
    (hinv : inp.hasInverter = true) (hre : inp.reachable = true)
    (hfreshStats : elapsed32 inp.now inp.statsLastUpdate ≤ 10000)
    (hprod : inp.isProducing = true)
    (hdc : 0 < inp.dcVoltage)
    (hstop : 0 < cfg.voltageStopThreshold)
    (hcorr : inp.dcVoltage + inp.acPower * cfg.voltageLoadCorrectionFactor
      ≤ cfg.voltageStopThreshold) :
    (PowerLimiter.loop cfg st inp).2 = .stopAndLimit (u16 cfg.lowerPowerLimit) ∧
    (PowerLimiter.loop cfg st inp).1.lastRequestedPowerLimit = u16 cfg.lowerPowerLimit ∧
    (PowerLimiter.loop cfg st inp).1.lastCommandSent = inp.now := by
  unfold PowerLimiter.loop
  rw [if_neg (by simp [hen, hmq, hri]; omega)]
  rw [if_neg (by simp [hinv, hre])]
  rw [if_neg (by omega)]
  rw [if_pos hprod]
  rw [if_pos ⟨hdc, hstop, hcorr⟩]
  exact ⟨rfl, rfl, rfl⟩

-- concrete scenario where the stop branch fires
def cfgStopW : PLConfig := ⟨true, 0, 0, 10, 1/2, false, 50, 800⟩

def stStopW : PLState := ⟨0, 0, 0, 0, 0, 0, 0⟩

def inpStopW : PLInputs := ⟨100000, true, true, true, true, 95000, 5, 4, true⟩

theorem c4_stop_branch_witness :
    (PowerLimiter.loop cfgStopW stStopW inpStopW).2 = .stopAndLimit 50 := by
  have h := c4_stop_branch cfgStopW stStopW inpStopW rfl rfl rfl (by decide) (by decide)
    rfl rfl (by decide) rfl (by norm_num [inpStopW]) (by norm_num [cfgStopW])
    (by norm_num [cfgStopW, inpStopW])
  exact h.1.trans (by decide)

-- concrete scenario where the claim's conditions hold but no stop is sent:
-- the inverter is producing with dcVoltage = 0, the stop threshold is 10 and
-- correctedVoltage = 0 + 4 * (1/2) = 2 ≤ 10, yet the loop proceeds to the
-- limit computation (meter data stale, so it commands the lower limit)
def inpStopCex : PLInputs := ⟨100000, true, true, true, true, 95000, 0, 4, true⟩

theorem c4_counterexample :
    inpStopCex.isProducing = true ∧
    0 < cfgStopW.voltageStopThreshold ∧
    inpStopCex.dcVoltage + inpStopCex.acPower * cfgStopW.voltageLoadCorrectionFactor
      ≤ cfgStopW.voltageStopThreshold ∧
    (PowerLimiter.loop cfgStopW stStopW inpStopCex).2 = .sendLimit 50 ∧
    (PowerLimiter.loop cfgStopW stStopW inpStopCex).2
      ≠ .stopAndLimit (u16 cfgStopW.lowerPowerLimit) := by
  refine ⟨rfl, by norm_num [cfgStopW], by norm_num [cfgStopW, inpStopCex], ?_, ?_⟩ <;> decide

/-- C7: on an active tick with the inverter producing, the stop branch not
taken and every meter reading at least 30000 ms old, the commanded limit is
exactly the configured lower power limit. -/
theorem c7_stale_lower (cfg : PLConfig) (st : PLState) (inp : PLInputs)
    (hen : cfg.enabled = true) (hmq : inp.mqttConnected = true) (hri : inp.radioIdle = true)
    (hcmd : cfg.interval * 1000 ≤ elapsed32 inp.now st.lastCommandSent)
    (hloop : cfg.interval * 1000 ≤ elapsed32 inp.now st.lastLoop)
    (hinv : inp.hasInverter = true) (hre : inp.reachable = true)
    (hfreshStats : elapsed32 inp.now inp.statsLastUpdate ≤ 10000)
    (hprod : inp.isProducing = true)
    (hnostop : ¬(0 < inp.dcVoltage ∧ 0 < cfg.voltageStopThreshold
      ∧ inp.dcVoltage + inp.acPower * cfg.voltageLoadCorrectionFactor
        ≤ cfg.voltageStopThreshold))
    (hstale : 30000 ≤ elapsed32 inp.now st.lastPowerMeterUpdate) :
    (PowerLimiter.loop cfg st inp).2 = .sendLimit (u16 cfg.lowerPowerLimit) ∧
    (PowerLimiter.loop cfg st inp).1.lastRequestedPowerLimit = u16 cfg.lowerPowerLimit := by
  have hnl : PowerLimiter.newLimit cfg st inp.now = u16 cfg.lowerPowerLimit := by
    unfold PowerLimiter.newLimit
    rw [if_neg (by omega)]
  have hact : (PowerLimiter.loop cfg st inp).2
      = .sendLimit (PowerLimiter.newLimit cfg st inp.now)
      ∧ (PowerLimiter.loop cfg st inp).1.lastRequestedPowerLimit
        = PowerLimiter.newLimit cfg st inp.now := by
    unfold PowerLimiter.loop
    rw [if_neg (by simp [hen, hmq, hri]; omega)]
    rw [if_neg (by simp [hinv, hre])]
    rw [if_neg (by omega)]
    rw [if_pos hprod]
    rw [if_neg hnostop]
    exact ⟨rfl, rfl⟩
  exact ⟨hact.1.trans (congrArg _ hnl), hact.2.trans hnl⟩

-- stale-meter scenario: the only meter update happened at millis() = 1000,
-- the tick runs at millis() = 100000
def stStaleW : PLState := ⟨0, 0, 0, 300, 100, 50, 1000⟩

def inpStaleW : PLInputs := ⟨100000, true, true, true, true, 95000, 20, 4, true⟩

theorem c7_stale_lower_witness :
    (PowerLimiter.loop cfgStopW stStaleW inpStaleW).2 = .sendLimit 50 := by
  have h := c7_stale_lower cfgStopW stStaleW inpStaleW rfl rfl rfl (by decide) (by decide)
    rfl rfl (by decide) rfl (by norm_num [cfgStopW, inpStaleW]) (by decide)
  exact h.1.trans (by decide)

/-- C2 (amended): on an active tick with the inverter producing, the stop
branch not taken and the shared meter timestamp younger than 30 s, the
commanded limit is `newLimit` — the meter sum plus (when the inverter sits
behind the meter) the last requested limit minus 10 W, wrapped to `uint16_t`
and clamped to `[lowerLimit, upperLimit]`; whenever the exact value of that
sum-minus-margin lies in `[0, 65535]` the wrap is the identity and the
commanded limit equals the claim's clamped value `claimedLimit`. -/
theorem c2_fresh_limit (cfg : PLConfig) (st : PLState) (inp : PLInputs)
    (hen : cfg.enabled = true) (hmq : inp.mqttConnected = true) (hri : inp.radioIdle = true)
    (hcmd : cfg.interval * 1000 ≤ elapsed32 inp.now st.lastCommandSent)
    (hloop : cfg.interval * 1000 ≤ elapsed32 inp.now st.lastLoop)
    (hinv : inp.hasInverter = true) (hre : inp.reachable = true)
    (hfreshStats : elapsed32 inp.now inp.statsLastUpdate ≤ 10000)
    (hprod : inp.isProducing = true)
    (hnostop : ¬(0 < inp.dcVoltage ∧ 0 < cfg.voltageStopThreshold
      ∧ inp.dcVoltage + inp.acPower * cfg.voltageLoadCorrectionFactor
        ≤ cfg.voltageStopThreshold))
    (hfresh : elapsed32 inp.now st.lastPowerMeterUpdate < 30000)
    (hlohi : u16 cfg.lowerPowerLimit ≤ u16 cfg.upperPowerLimit)
    (hS0 : 0 ≤ cppTrunc (st.powerMeter1Power + st.powerMeter2Power + st.powerMeter3Power)
      + (if cfg.isInverterBehindPowerMeter then (st.lastRequestedPowerLimit : Int) else 0) - 10)
    (hS1 : cppTrunc (st.powerMeter1Power + st.powerMeter2Power + st.powerMeter3Power)
      + (if cfg.isInverterBehindPowerMeter then (st.lastRequestedPowerLimit : Int) else 0) - 10
      < 65536) :
    (PowerLimiter.loop cfg st inp).2 = .sendLimit (PowerLimiter.newLimit cfg st inp.now) ∧
    (PowerLimiter.loop cfg st inp).1.lastRequestedPowerLimit
      = PowerLimiter.newLimit cfg st inp.now ∧
    (PowerLimiter.newLimit cfg st inp.now : Int) = claimedLimit cfg st := by
  have hact : (PowerLimiter.loop cfg st inp).2 = .sendLimit (PowerLimiter.newLimit cfg st inp.now)
      ∧ (PowerLimiter.loop cfg st inp).1.lastRequestedPowerLimit
        = PowerLimiter.newLimit cfg st inp.now := by
    unfold PowerLimiter.loop
    rw [if_neg (by simp [hen, hmq, hri]; omega)]
    rw [if_neg (by simp [hinv, hre])]
    rw [if_neg (by omega)]
    rw [if_pos hprod]
    rw [if_neg hnostop]
    exact ⟨rfl, rfl⟩
  refine ⟨hact.1, hact.2, ?_⟩
  unfold PowerLimiter.newLimit claimedLimit
  rw [if_pos hfresh]
  set T := cppTrunc (st.powerMeter1Power + st.powerMeter2Power + st.powerMeter3Power) with hT
  by_cases hb : cfg.isInverterBehindPowerMeter
  · simp only [hb, if_true] at hS0 hS1 ⊢
    rw [u16_add_left, u16_sub_left]
    rw [constrain_eq_clamp _ _ _ hlohi]
    have := u16_lt cfg.lowerPowerLimit
    have := u16_lt cfg.upperPowerLimit
    unfold u16 at *
    push_cast
    omega
  · have hb' : cfg.isInverterBehindPowerMeter = false := by simpa using hb
    simp only [hb', Bool.false_eq_true, if_false] at hS0 hS1 ⊢
    rw [u16_sub_left]
    rw [constrain_eq_clamp _ _ _ hlohi]
    have := u16_lt cfg.lowerPowerLimit
    have := u16_lt cfg.upperPowerLimit
    unfold u16 at *
    push_cast
    omega

-- fresh-meter scenario: meters 300 + 100 + 50 W updated at millis() = 99000,
-- tick at millis() = 100000; 450 - 10 = 440 lies within [50, 800]
def stFreshW : PLState := ⟨0, 0, 0, 300, 100, 50, 99000⟩

theorem c2_fresh_limit_witness :
    (PowerLimiter.loop cfgStopW stFreshW inpStaleW).2 = .sendLimit 440 := by
  have h := c2_fresh_limit cfgStopW stFreshW inpStaleW rfl rfl rfl (by decide) (by decide)
    rfl rfl (by decide) rfl (by norm_num [cfgStopW, inpStaleW]) (by decide) (by decide)
    (by norm_num [stFreshW, cfgStopW, cppTrunc]) (by norm_num [stFreshW, cfgStopW, cppTrunc])
  refine h.1.trans ?_
  norm_num [PowerLimiter.newLimit, cfgStopW, stFreshW, inpStaleW, elapsed32, cppTrunc, u16,
    constrain]
  all_goals decide

-- fresh-meter scenario: total meter power -100 W (feed-in); the claim's
-- clamp gives the lower limit 50 W, the code's uint16 wraparound gives the
-- upper limit 800 W
def stWrapCex : PLState := ⟨0, 0, 0, -100, 0, 0, 99000⟩

theorem c2_counterexample :
    elapsed32 inpStaleW.now stWrapCex.lastPowerMeterUpdate < 30000 ∧
    claimedLimit cfgStopW stWrapCex = 50 ∧
    (PowerLimiter.loop cfgStopW stWrapCex inpStaleW).2 = .sendLimit 800 ∧
    PLAction.sendLimit 800 ≠ PLAction.sendLimit 50 := by
  refine ⟨by decide, ?_, ?_, by decide⟩
  · norm_num [claimedLimit, cfgStopW, stWrapCex, cppTrunc, u16]
  · simp only [PowerLimiter.loop, PowerLimiter.newLimit, cfgStopW, stWrapCex, inpStaleW]
    norm_num [elapsed32, cppTrunc, u16, constrain]
    all_goals decide


namespace Surplus

theorem stageIIEntry_upper (st : Surplus) (req : Nat) :
    ((stageIIEntry st req).2).surplusUpperPowerLimit = st.surplusUpperPowerLimit := rfl

theorem stageIIMachine_upper (st : Surplus) (req now : Nat) (mv av tv : ℚ) :
    ((stageIIMachine st req now mv av tv).2).surplusUpperPowerLimit
      = st.surplusUpperPowerLimit := by
  unfold stageIIMachine stageIIEntry
  rcases st.surplusState <;> dsimp only <;> (repeat' split) <;> rfl

theorem stageIIOverrule_upper (st : Surplus) (inp : SPInputs) (ap : Int) :
    ((stageIIOverrule st inp ap).2).surplusUpperPowerLimit = st.surplusUpperPowerLimit := by
  unfold stageIIOverrule
  split <;> rfl

theorem stageIIFinish_bounds (st : Surplus) (req : Nat) (ap : Int)
    (h0 : 0 ≤ st.surplusUpperPowerLimit) (h1 : st.surplusUpperPowerLimit < 65536) :
    req ≤ (stageIIFinish st req ap).2 ∧
    (stageIIFinish st req ap).2 ≤ max req st.surplusUpperPowerLimit.toNat := by
  unfold stageIIFinish
  dsimp only
  split
  · constructor
    · split <;> (unfold u16 at *; omega)
    · split <;> (unfold u16 at *; omega)
  · constructor
    · split <;> (unfold u16 at *; omega)
    · split <;> (unfold u16 at *; omega)

theorem stageIIFinish_bounds' (st : Surplus) (req : Nat) (ap : Int) (U : Int)
    (hU : st.surplusUpperPowerLimit = U) (h0 : 0 ≤ U) (h1 : U < 65536) :
    req ≤ (stageIIFinish st req ap).2 ∧
    (stageIIFinish st req ap).2 ≤ max req U.toNat := by
  subst hU
  exact stageIIFinish_bounds st req ap h0 h1

theorem calcAbsorptionFloatMode_bounds (st : Surplus) (inp : SPInputs) (req modeAF : Nat)
    (h0 : 0 ≤ st.surplusUpperPowerLimit) (h1 : st.surplusUpperPowerLimit < 65536) :
    req ≤ (calcAbsorptionFloatMode st inp req modeAF).2 ∧
    (calcAbsorptionFloatMode st inp req modeAF).2
      ≤ max req st.surplusUpperPowerLimit.toNat := by
  unfold calcAbsorptionFloatMode
  rcases hao : inp.absorptionVoltage with _ | av
  · exact ⟨le_refl req, le_max_left _ _⟩
  rcases hfo : inp.floatVoltage with _ | fv
  · exact ⟨le_refl req, le_max_left _ _⟩
  rcases hmo : inp.mpptBatteryVoltage with _ | mv
  · exact ⟨le_refl req, le_max_left _ _⟩
  dsimp only
  exact stageIIFinish_bounds' _ req _ _
    (by rw [stageIIOverrule_upper, stageIIMachine_upper]) h0 h1

theorem calcBulkMode_bounds (st : Surplus) (inp : SPInputs) (req : Nat)
    (h0 : 0 ≤ st.surplusUpperPowerLimit) (h1 : st.surplusUpperPowerLimit < 65536) :
    req ≤ (calcBulkMode st inp req).2 ∧
    (calcBulkMode st inp req).2 ≤ max req st.surplusUpperPowerLimit.toNat := by
  unfold calcBulkMode getTimeToSunset
  dsimp only
  repeat' split
  all_goals first
    | exact ⟨le_refl req, le_max_left _ _⟩
    | (constructor
       · exact Nat.le_max_right _ _
       · unfold u16; dsimp only; omega)

/-- C1 (amended): for every call of `calculateSurplusPower` whose state
satisfies the regulator's running invariant
`0 ≤ surplusPower ≤ surplusUpperPowerLimit` (with a sane upper limit), the
returned power is at least `requestedPower` and at most
`max requestedPower upperLimit`; the `[0, upperLimit]` clamp applies to the
surplus component only, and the floor at `requestedPower` can push the
result above `upperLimit`. -/
theorem c1_output_bounds (st : Surplus) (inp : SPInputs) (req : Nat)
    (hsp0 : 0 ≤ st.surplusPower) (hsp1 : st.surplusPower ≤ st.surplusUpperPowerLimit)
    (h0 : 0 ≤ st.surplusUpperPowerLimit) (h1 : st.surplusUpperPowerLimit < 65536) :
    req ≤ (calculateSurplusPower st inp req).2 ∧
    (calculateSurplusPower st inp req).2 ≤ max req st.surplusUpperPowerLimit.toNat := by
  unfold calculateSurplusPower
  split
  · -- throttled tick
    split
    · exact ⟨le_refl req, le_max_left _ _⟩
    · constructor
      · unfold u16; omega
      · unfold u16; omega
  · rcases hmo : inp.mpptMode with _ | m
    · exact ⟨le_refl req, le_max_left _ _⟩
    dsimp only
    split
    · exact calcBulkMode_bounds _ inp req h0 h1
    split
    · exact calcAbsorptionFloatMode_bounds _ inp req m h0 h1
    · exact ⟨le_refl req, le_max_left _ _⟩

/-- C5 (amended): in stage-II state `TRY_MORE` the comparison uses the
instantaneous MPPT battery voltage, not the smoothed 5-sample average: when
that voltage is below the target the state moves to `REDUCE_POWER` and the
surplus decreases by exactly `stepSize`, and when it is at or above the
target the surplus increases by `2 * stepSize` and the state stays
`TRY_MORE` — provided no battery-current overrule applies, the result stays
inside `[0, upperLimit]` and at or above `requestedPower`. -/
theorem c5_try_more (st : Surplus) (inp : SPInputs) (req modeAF : Nat) (av fv mv : ℚ)
    (hst : st.surplusState = .TRY_MORE)
    (habs : inp.absorptionVoltage = some av) (hfl : inp.floatVoltage = some fv)
    (hmv : inp.mpptBatteryVoltage = some mv)
    (hnoover : inp.batteryEnabled = false)
    (hstep : 0 ≤ st.powerStepSize)
    (hsp1 : st.surplusPower ≤ st.surplusUpperPowerLimit)
    (hup : st.surplusUpperPowerLimit < 65536) :
    (mv / 1000 < (if modeAF = 4 then av else fv) / 1000 - 1 / 10 →
      0 ≤ st.surplusPower - st.powerStepSize →
      (req : Int) ≤ st.surplusPower - st.powerStepSize →
      (calcAbsorptionFloatMode st inp req modeAF).1.surplusState = .REDUCE_POWER ∧
      (calcAbsorptionFloatMode st inp req modeAF).1.surplusPower
        = st.surplusPower - st.powerStepSize) ∧
    ((if modeAF = 4 then av else fv) / 1000 - 1 / 10 ≤ mv / 1000 →
      0 ≤ st.surplusPower →
      st.surplusPower + 2 * st.powerStepSize ≤ st.surplusUpperPowerLimit →
      (req : Int) ≤ st.surplusPower + 2 * st.powerStepSize →
      (calcAbsorptionFloatMode st inp req modeAF).1.surplusState = .TRY_MORE ∧
      (calcAbsorptionFloatMode st inp req modeAF).1.surplusPower
        = st.surplusPower + 2 * st.powerStepSize) := by
  unfold calcAbsorptionFloatMode
  simp only [habs, hfl, hmv]
  unfold stageIIMachine
  dsimp only
  rw [hst]
  dsimp only
  constructor
  · intro hlow hfits hreq
    rw [if_neg (not_le.mpr hlow)]
    unfold stageIIOverrule
    dsimp only
    rw [if_neg (by simp [hnoover])]
    unfold stageIIFinish
    dsimp only
    rw [max_eq_left (show (0:Int) ≤ st.surplusPower + -st.powerStepSize by omega)]
    rw [if_neg (show ¬(st.surplusUpperPowerLimit < st.surplusPower + -st.powerStepSize) by omega)]
    dsimp only
    rw [if_neg (show ¬(u16 (st.surplusPower + -st.powerStepSize) < req) by unfold u16; omega)]
    constructor
    · split <;> rfl
    · split <;> dsimp only <;> omega
  · intro hhigh hsp0 hcap hreq
    rw [if_pos hhigh]
    unfold stageIIOverrule
    dsimp only
    rw [if_neg (by simp [hnoover])]
    unfold stageIIFinish
    dsimp only
    rw [max_eq_left (show (0:Int) ≤ st.surplusPower + 2 * st.powerStepSize by omega)]
    rw [if_neg (show ¬(st.surplusUpperPowerLimit < st.surplusPower + 2 * st.powerStepSize) by omega)]
    dsimp only
    rw [if_neg (show ¬(u16 (st.surplusPower + 2 * st.powerStepSize) < req) by unfold u16; omega)]
    constructor
    · split <;> rfl
    · split <;> dsimp only

/-- C6: on an active (non-throttled) tick, each missing required external
reading — MPPT operating mode, absorption or float voltage, MPPT battery
voltage, battery SoC, or solar panel power — makes the call increment the
error counter by one and return `requestedPower` unchanged (the embedding is
a total function, so no abort happens). -/
theorem c6_missing_readings (st : Surplus) (inp : SPInputs) (req : Nat)
    (hactive : 5 * 1000 ≤ elapsed32 inp.now st.lastCalcMillis) :
    (inp.mpptMode = none →
      (calculateSurplusPower st inp req).2 = req ∧
      (calculateSurplusPower st inp req).1.errorCounter = st.errorCounter + 1) ∧
    (∀ m, inp.mpptMode = some m →
      st.stageIIEnabled = true → st.stageIITempOff = false → (m = 4 ∨ m = 5) →
      (inp.absorptionVoltage = none ∨ inp.floatVoltage = none) →
      (calculateSurplusPower st inp req).2 = req ∧
      (calculateSurplusPower st inp req).1.errorCounter = st.errorCounter + 1) ∧
    (∀ m av fv, inp.mpptMode = some m →
      st.stageIIEnabled = true → st.stageIITempOff = false → (m = 4 ∨ m = 5) →
      inp.absorptionVoltage = some av → inp.floatVoltage = some fv →
      inp.mpptBatteryVoltage = none →
      (calculateSurplusPower st inp req).2 = req ∧
      (calculateSurplusPower st inp req).1.errorCounter = st.errorCounter + 1) ∧
    (inp.mpptMode = some 3 →
      st.stageIEnabled = true → st.stageITempOff = false →
      ¬(inp.batteryEnabled = true ∧ inp.socValid = true ∧ inp.socAgeSeconds < 60) →
      (calculateSurplusPower st inp req).2 = req ∧
      (calculateSurplusPower st inp req).1.errorCounter = st.errorCounter + 1) ∧
    (inp.mpptMode = some 3 →
      st.stageIEnabled = true → st.stageITempOff = false →
      inp.batteryEnabled = true → inp.socValid = true → inp.socAgeSeconds < 60 →
      ¬(inp.soc ≤ st.startSoC - 2 ∨ (inp.soc < st.startSoC ∧ st.surplusState = .IDLE)) →
      inp.solarPowerOutput = -1 →
      (calculateSurplusPower st inp req).2 = req ∧
      (calculateSurplusPower st inp req).1.errorCounter = st.errorCounter + 1) := by
  refine ⟨?_, ?_, ?_, ?_, ?_⟩
  · intro hmode
    unfold calculateSurplusPower
    rw [if_neg (by omega), hmode]
    exact ⟨rfl, rfl⟩
  · intro m hmode hIIen hIIoff hm45 hmiss
    unfold calculateSurplusPower
    rw [if_neg (by omega), hmode]
    dsimp only
    rw [if_neg (by rintro ⟨-, -, rfl⟩; rcases hm45 with h | h <;> exact absurd h (by decide))]
    rw [if_pos ⟨hIIen, hIIoff, hm45⟩]
    unfold calcAbsorptionFloatMode
    rcases hao : inp.absorptionVoltage with _ | av
    · rcases hfo : inp.floatVoltage with _ | fv <;> exact ⟨rfl, rfl⟩
    · rcases hfo : inp.floatVoltage with _ | fv
      · exact ⟨rfl, rfl⟩
      · rcases hmiss with h | h
        · exact absurd (hao.symm.trans h) (by exact fun hc => Option.noConfusion hc)
        · exact absurd (hfo.symm.trans h) (by exact fun hc => Option.noConfusion hc)
  · intro m av fv hmode hIIen hIIoff hm45 hao hfo hmv
    unfold calculateSurplusPower
    rw [if_neg (by omega), hmode]
    dsimp only
    rw [if_neg (by rintro ⟨-, -, rfl⟩; rcases hm45 with h | h <;> exact absurd h (by decide))]
    rw [if_pos ⟨hIIen, hIIoff, hm45⟩]
    unfold calcAbsorptionFloatMode
    rw [hao, hfo, hmv]
    exact ⟨rfl, rfl⟩
  · intro hmode hIen hIoff hsoc
    unfold calculateSurplusPower
    rw [if_neg (by omega), hmode]
    dsimp only
    rw [if_pos ⟨hIen, hIoff, rfl⟩]
    unfold calcBulkMode
    rw [if_neg hsoc]
    exact ⟨rfl, rfl⟩
  · intro hmode hIen hIoff hbe hsv hage hgate hsolar
    unfold calculateSurplusPower
    rw [if_neg (by omega), hmode]
    dsimp only
    rw [if_pos ⟨hIen, hIoff, rfl⟩]
    unfold calcBulkMode
    dsimp only
    rw [if_pos ⟨hbe, hsv, hage⟩]
    rw [if_neg hgate]
    try dsimp only
    rw [if_pos hsolar]
    exact ⟨rfl, rfl⟩

/-- C9: stage-I is gated on SoC with a 2-point hysteresis: when
`SoC <= startSoC - 2`, or `SoC < startSoC` while the state is `IDLE`, the
surplus power is zeroed, the state becomes `IDLE` and the call returns
`requestedPower`; and `updateSettings` sets the start threshold to 80 %. -/
theorem c9_bulk_soc_gate (st : Surplus) (inp : SPInputs) (req : Nat)
    (hactive : 5 * 1000 ≤ elapsed32 inp.now st.lastCalcMillis)
    (hmode : inp.mpptMode = some 3)
    (hIen : st.stageIEnabled = true) (hIoff : st.stageITempOff = false)
    (hbe : inp.batteryEnabled = true) (hsv : inp.socValid = true)
    (hage : inp.socAgeSeconds < 60)
    (hgate : inp.soc ≤ st.startSoC - 2 ∨ (inp.soc < st.startSoC ∧ st.surplusState = .IDLE)) :
    (calculateSurplusPower st inp req).2 = req ∧
    (calculateSurplusPower st inp req).1.surplusPower = 0 ∧
    (calculateSurplusPower st inp req).1.surplusState = .IDLE ∧
    ∀ (u h : Int) (s : Surplus), (updateSettings u h s).startSoC = 80 := by
  unfold calculateSurplusPower
  rw [if_neg (by omega), hmode]
  dsimp only
  rw [if_pos ⟨hIen, hIoff, rfl⟩]
  unfold calcBulkMode
  dsimp only
  rw [if_pos ⟨hbe, hsv, hage⟩]
  rw [if_pos hgate]
  refine ⟨rfl, rfl, rfl, fun u h s => ?_⟩
  unfold updateSettings
  norm_num

set_option maxHeartbeats 2000000 in
/-- C8: whenever the stage-I reserve recompute is due (more than 5 minutes
since the last one), the battery reserve becomes
`max (trunc (capacity * (0.998 - SoC/100) / minutesToDeadline * 60 *
(1 + safetyMargin/100))) 0`; when it is not due, the reserve is left
unchanged. -/
theorem c8_battery_reserve (st : Surplus) (inp : SPInputs) (req : Nat) (tts : Int)
    (hactive : 5 * 1000 ≤ elapsed32 inp.now st.lastCalcMillis)
    (hmode : inp.mpptMode = some 3)
    (hIen : st.stageIEnabled = true) (hIoff : st.stageITempOff = false)
    (hbe : inp.batteryEnabled = true) (hsv : inp.socValid = true)
    (hage : inp.socAgeSeconds < 60)
    (hgate : ¬(inp.soc ≤ st.startSoC - 2 ∨ (inp.soc < st.startSoC ∧ st.surplusState = .IDLE)))
    (hsolar : ¬(inp.solarPowerOutput = -1))
    (hstate : ¬(st.surplusState = .IDLE))
    (htts : inp.timeToSunsetRaw = some tts)
    (hdna : 0 < max tts 0 - st.durationAbsorptionToSunset) :
    (5 * 60 * 1000 < elapsed32 inp.now st.lastReserveCalcMillis →
      (calculateSurplusPower st inp req).1.batteryReserve
        = max (cppTrunc ((st.batteryCapacity : ℚ) * (998 / 1000 - inp.soc / 100)
            / ((max tts 0 - st.durationAbsorptionToSunset : Int) : ℚ) * 60
            * (1 + st.batterySafetyPercent / 100))) 0) ∧
    (¬(5 * 60 * 1000 < elapsed32 inp.now st.lastReserveCalcMillis) →
      (calculateSurplusPower st inp req).1.batteryReserve = st.batteryReserve) := by
  unfold calculateSurplusPower
  rw [if_neg (by omega), hmode]
  dsimp only
  rw [if_pos ⟨hIen, hIoff, rfl⟩]
  unfold calcBulkMode
  dsimp only
  rw [if_pos ⟨hbe, hsv, hage⟩]
  rw [if_neg hgate]
  try dsimp only
  rw [if_neg hsolar]
  rw [if_neg hstate]
  unfold getTimeToSunset
  rw [htts]
  try dsimp only
  constructor
  · intro hdue
    rw [if_pos hdue]
    try dsimp only
    rw [if_pos hdna]
  · intro hdue
    rw [if_neg hdue]


-- baseline regulator state: step 50 W, upper limit 800 W, stage I and II on
def spBase : Surplus := {
  stageIIEnabled := true, stageIITempOff := false,
  surplusState := .IDLE, surplusPower := 0, powerStepSize := 50,
  lastInTargetMillis := 0, lastCalcMillis := 0, surplusUpperPowerLimit := 800,
  avgMPPTVoltage := ⟨5, []⟩, qualityCounter := 0, qualityAVG := ⟨20, []⟩,
  lastAddPower := 0, overruleCounter := 0, errorCounter := 0,
  stageIEnabled := true, stageITempOff := false,
  batteryReserve := 0, batterySafetyPercent := 30, batteryCapacity := 2500,
  durationAbsorptionToSunset := 30, durationNowToAbsorption := 0,
  solarPower := 0, startSoC := 80, lastReserveCalcMillis := 0 }

-- an active tick (10 s since the last calculation) with no MPPT mode reading
def spInpNoMode : SPInputs := {
  now := 10000, mpptMode := none,
  absorptionVoltage := none, floatVoltage := none, mpptBatteryVoltage := none,
  batteryEnabled := false, socValid := false, socAgeSeconds := 0, soc := 0,
  batteryCurrentValid := false, batteryCurrentAgeSeconds := 0, batteryChargeCurrent := 0,
  solarPowerOutput := -1, timeToSunsetRaw := none }

-- C1 counterexample: an error tick with requestedPower 801 above the 800 W
-- upper limit returns 801, so the output is not within [0, upperLimit]
theorem c1_counterexample :
    (calculateSurplusPower spBase spInpNoMode 801).2 = 801 ∧
    ¬((calculateSurplusPower spBase spInpNoMode 801).2
        ≤ spBase.surplusUpperPowerLimit.toNat) := by
  refine ⟨by decide, by decide⟩

theorem c1_output_bounds_witness :
    77 ≤ (calculateSurplusPower spBase spInpNoMode 77).2 ∧
    (calculateSurplusPower spBase spInpNoMode 77).2 ≤ max 77 (Int.toNat 800) := by
  exact c1_output_bounds spBase spInpNoMode 77 (by decide) (by decide) (by decide) (by decide)

theorem c6_missing_readings_witness :
    (calculateSurplusPower spBase spInpNoMode 77).2 = 77 ∧
    (calculateSurplusPower spBase spInpNoMode 77).1.errorCounter = 1 := by
  have h := (c6_missing_readings spBase spInpNoMode 77 (by decide)).1 rfl
  exact ⟨h.1, h.2.trans (by decide)⟩

-- stage-II TRY_MORE state whose 5-sample voltage window holds four low
-- samples, so the smoothed average stays below target while the newest
-- sample is above it
def spC5St : Surplus :=
  { spBase with
    surplusState := .TRY_MORE
    surplusPower := 100
    avgMPPTVoltage := ⟨5, [10, 10, 10, 10]⟩ }

-- absorption mode tick: absorption set-point 12.1 V (target 12.0 V), MPPT
-- battery voltage 13.0 V
def spC5Inp : SPInputs := {
  now := 10000, mpptMode := some 4,
  absorptionVoltage := some 12100, floatVoltage := some 13000,
  mpptBatteryVoltage := some 13000,
  batteryEnabled := false, socValid := false, socAgeSeconds := 0, soc := 0,
  batteryCurrentValid := false, batteryCurrentAgeSeconds := 0, batteryChargeCurrent := 0,
  solarPowerOutput := -1, timeToSunsetRaw := none }

-- C5 counterexample: the smoothed voltage (10.6 V) is below the 12.0 V
-- target, yet the state stays TRY_MORE and the surplus increases by
-- 2 * stepSize instead of moving to REDUCE_POWER with a stepSize decrease
theorem c5_counterexample :
    (spC5St.avgMPPTVoltage.addNumber ((13000 : ℚ) / 1000)).getAverage
      < (12100 : ℚ) / 1000 - 1 / 10 ∧
    (calcAbsorptionFloatMode spC5St spC5Inp 50 4).1.surplusState = SPState.TRY_MORE ∧
    (calcAbsorptionFloatMode spC5St spC5Inp 50 4).1.surplusPower = 200 ∧
    SPState.TRY_MORE ≠ SPState.REDUCE_POWER ∧
    (200 : Int) ≠ spC5St.surplusPower - spC5St.powerStepSize := by
  refine ⟨?_, ?_, ?_, by decide, by decide⟩
  · norm_num [spC5St, spBase, WAvg.addNumber, WAvg.getAverage]
  · norm_num [calcAbsorptionFloatMode, stageIIMachine, stageIIOverrule, stageIIFinish,
      spC5St, spC5Inp, spBase, WAvg.addNumber, WAvg.getAverage, u16]
  · norm_num [calcAbsorptionFloatMode, stageIIMachine, stageIIOverrule, stageIIFinish,
      spC5St, spC5Inp, spBase, WAvg.addNumber, WAvg.getAverage, u16]

def spC5StW : Surplus := { spC5St with surplusPower := 300 }

def spC5InpW : SPInputs := { spC5Inp with mpptBatteryVoltage := some 11000 }

theorem c5_try_more_witness :
    (calcAbsorptionFloatMode spC5StW spC5InpW 50 4).1.surplusState = SPState.REDUCE_POWER ∧
    (calcAbsorptionFloatMode spC5StW spC5InpW 50 4).1.surplusPower = 250 := by
  have h := (c5_try_more spC5StW spC5InpW 50 4 12100 13000 11000 rfl rfl rfl rfl rfl
    (by decide) (by decide) (by decide)).1 (by norm_num) (by decide) (by decide)
  exact ⟨h.1, h.2.trans (by decide)⟩


-- bulk-mode state already active (BULK_POWER) with a 40 % start threshold so
-- that a 50 % SoC passes the gate; reserve recompute is due
def spC8St : Surplus :=
  { spBase with
    surplusState := .BULK_POWER
    startSoC := 40 }

-- bulk tick at millis() = 400000: SoC 50 %, solar power 1500 W, 150 minutes
-- to sunset (so 120 minutes to the absorption deadline)
def spC8Inp : SPInputs := {
  now := 400000, mpptMode := some 3,
  absorptionVoltage := none, floatVoltage := none, mpptBatteryVoltage := none,
  batteryEnabled := true, socValid := true, socAgeSeconds := 10, soc := 50,
  batteryCurrentValid := false, batteryCurrentAgeSeconds := 0, batteryChargeCurrent := 0,
  solarPowerOutput := 1500, timeToSunsetRaw := some 150 }

theorem c8_battery_reserve_witness :
    (calculateSurplusPower spC8St spC8Inp 100).1.batteryReserve = 809 ∧
    (810 : Int) - (calculateSurplusPower spC8St spC8Inp 100).1.batteryReserve ≤ 1 := by
  have h := (c8_battery_reserve spC8St spC8Inp 100 150 (by decide) rfl rfl rfl rfl rfl
    (by decide) (by norm_num [spC8St, spBase, spC8Inp]) (by decide) (by decide) rfl
    (by decide)).1 (by decide)
  have hv : (calculateSurplusPower spC8St spC8Inp 100).1.batteryReserve = 809 := by
    rw [h]
    norm_num [cppTrunc, spC8St, spBase, spC8Inp]
  exact ⟨hv, by rw [hv]; decide⟩

def spC9St : Surplus := { spBase with surplusState := .BULK_POWER, surplusPower := 300 }

def spC9Inp : SPInputs := { spC8Inp with soc := 50 }

theorem c9_bulk_soc_gate_witness :
    (calculateSurplusPower spC9St spC9Inp 123).2 = 123 ∧
    (calculateSurplusPower spC9St spC9Inp 123).1.surplusPower = 0 ∧
    (calculateSurplusPower spC9St spC9Inp 123).1.surplusState = SPState.IDLE := by
  have h := c9_bulk_soc_gate spC9St spC9Inp 123 (by decide) rfl rfl rfl rfl rfl (by decide)
    (Or.inl (by norm_num [spC9St, spBase, spC9Inp]))
  exact ⟨h.1, h.2.1, h.2.2.1⟩


end Surplus

end OpenDTU
